import Mathlib

/-!
Verification of the model-loading pipeline in
`vllm/model_executor/model_loader.py`.

The file is a shallow embedding of that module: model classes become an
inductive type, the architecture registry becomes an ordered association
list, torch dtypes become an inductive type, and the process-wide default
dtype becomes an explicit `TorchState` threaded through the functions.
External collaborators (the quantization config loader, the accelerator
capability query, the model constructors and weight loaders) are an
explicit `Env` record, so that a single run of `get_model` is a pure
function of the configuration, the environment and the initial torch
state.  Exceptions become `Except LoadError`.
-/

/-- The model implementation classes imported by the wildcard import of
`vllm.model_executor.models`.  Each constructor is one distinct class
object; registry aliases map several names to the same constructor. -/
inductive ModelClass where
  | AquilaForCausalLM
  | BaiChuanForCausalLM
  | BaichuanForCausalLM
  | BloomForCausalLM
  | FalconForCausalLM
  | GPT2LMHeadModel
  | GPTBigCodeForCausalLM
  | GPTJForCausalLM
  | GPTNeoXForCausalLM
  | InternLMForCausalLM
  | LlamaForCausalLM
  | MistralForCausalLM
  | MptForCausalLM
  | OPTForCausalLM
  | QWenLMHeadModel
  deriving DecidableEq, Repr

/-- Torch floating-point dtypes relevant to this module. -/
inductive TorchDtype where
  | float16
  | bfloat16
  | float32
  | float64
  deriving DecidableEq, Repr

/-- The `_MODEL_REGISTRY` dict, as an insertion-ordered association list;
Python dicts preserve insertion order, so `list(_MODEL_REGISTRY.keys())`
is the list of first components in this order. -/
def _MODEL_REGISTRY : List (String × ModelClass) := [
  ("AquilaModel", ModelClass.AquilaForCausalLM),
  ("AquilaForCausalLM", ModelClass.AquilaForCausalLM),
  ("BaiChuanForCausalLM", ModelClass.BaiChuanForCausalLM),
  ("BaichuanForCausalLM", ModelClass.BaichuanForCausalLM),
  ("BloomForCausalLM", ModelClass.BloomForCausalLM),
  ("FalconForCausalLM", ModelClass.FalconForCausalLM),
  ("GPT2LMHeadModel", ModelClass.GPT2LMHeadModel),
  ("GPTBigCodeForCausalLM", ModelClass.GPTBigCodeForCausalLM),
  ("GPTJForCausalLM", ModelClass.GPTJForCausalLM),
  ("GPTNeoXForCausalLM", ModelClass.GPTNeoXForCausalLM),
  ("InternLMForCausalLM", ModelClass.InternLMForCausalLM),
  ("LlamaForCausalLM", ModelClass.LlamaForCausalLM),
  ("LLaMAForCausalLM", ModelClass.LlamaForCausalLM),
  ("MistralForCausalLM", ModelClass.MistralForCausalLM),
  ("MptForCausalLM", ModelClass.MptForCausalLM),
  ("MPTForCausalLM", ModelClass.MptForCausalLM),
  ("OPTForCausalLM", ModelClass.OPTForCausalLM),
  ("QWenLMHeadModel", ModelClass.QWenLMHeadModel),
  ("RWForCausalLM", ModelClass.FalconForCausalLM)]

/-- Dict key lookup: the value under the first (unique) matching key. -/
def registryLookup : List (String × ModelClass) → String → Option ModelClass
  | [], _ => none
  | (k, v) :: rest, a => if k = a then some v else registryLookup rest a

/-- The `_MODEL_CLASSES_SUPPORT_QUANTIZATION` list. -/
def _MODEL_CLASSES_SUPPORT_QUANTIZATION : List ModelClass :=
  [ModelClass.LlamaForCausalLM, ModelClass.MistralForCausalLM]

/-- The `_MODEL_CLASSES_SUPPORT_TENSORIZER` list. -/
def _MODEL_CLASSES_SUPPORT_TENSORIZER : List ModelClass :=
  [ModelClass.MistralForCausalLM]

/-- The `transformers.PretrainedConfig` object, restricted to the one
attribute this module reads.  `architectures = none` models an object on
which the `architectures` attribute is absent, so that
`getattr(config, "architectures", [])` yields the default `[]`. -/
structure PretrainedConfig where
  architectures : Option (List String)
  deriving DecidableEq, Repr

/-- The `vllm.config.ModelConfig` record, restricted to the fields this
module reads. -/
structure ModelConfig where
  hf_config : PretrainedConfig
  model : String
  download_dir : Option String
  load_format : String
  dtype : TorchDtype
  quantization : Option String
  revision : Option String
  tensorizer_path : Option String
  deriving DecidableEq, Repr

/-- The object returned by `get_quant_config`: exposes
`get_min_capability()` and `get_supported_act_dtypes()`. -/
structure QuantConfig where
  min_capability : Nat
  supported_act_dtypes : List TorchDtype
  deriving DecidableEq, Repr

/-- The exceptions this module raises (all `ValueError`s in the source,
distinguished here by the data their messages carry), plus `collaborator`
for an exception propagated unchanged from an external collaborator. -/
inductive LoadError where
  | unsupportedArchitecture (attempted : List String) (supported : List String)
  | unsupportedLoadFormat (model_class : ModelClass)
  | unsupportedQuantization (model_class : ModelClass)
  | incompatibleAccelerator (quantization : String) (min_capability : Nat)
      (current_capability : Nat)
  | unsupportedDtype (dtype : TorchDtype) (quantization : String)
      (supported_dtypes : List TorchDtype)
  | collaborator (msg : String)
  deriving DecidableEq, Repr

/-- The five validation errors raised by this module itself, as opposed
to a failure propagated from an external collaborator. -/
def LoadError.isValidationError : LoadError → Bool
  | .collaborator _ => false
  | _ => true

/-- The external collaborators of one load operation:
`get_quant_config` (may raise if the scheme metadata is absent or
malformed), `torch.cuda.get_device_capability()` (a (major, minor)
pair), the outcome of the model class constructor call, and the outcome
of the model `load_weights` call. -/
structure Env where
  get_quant_config : String → String → Option String → Except String QuantConfig
  get_device_capability : Nat × Nat
  construct_result : Except String Unit
  load_weights_result : Except String Unit

/-- The process-wide torch default-dtype state.  `set_calls` logs every
value ever passed to `torch.set_default_dtype`, in order, so a run that
never modifies the global default is one whose final state equals its
initial state. -/
structure TorchState where
  default_dtype : TorchDtype
  set_calls : List TorchDtype
  deriving DecidableEq, Repr

/-- The `torch.set_default_dtype` call. -/
def torch_set_default_dtype (d : TorchDtype) (s : TorchState) : TorchState :=
  { default_dtype := d, set_calls := s.set_calls ++ [d] }

/-- How the weight tensors of a constructed model were materialized.
`dummyInitialized` records whether the model was device-resident at the
moment `initialize_dummy_weights` ran. -/
inductive WeightsState where
  | uninitialized
  | dummyInitialized (on_device_at_init : Bool)
  | loadedFromCheckpoint (model : String) (download_dir : Option String)
      (load_format : String) (revision : Option String)
      (tensorizer_path : Option String)
  deriving DecidableEq, Repr

/-- The observable state of a constructed model object.  `quant_arg` is
`none` when the class was called with the config object alone, and
`some q` when it was called with a second positional argument `q`
(where `q = none` embeds the Python value `None`). -/
structure ModelHandle where
  cls : ModelClass
  hf_config : PretrainedConfig
  quant_arg : Option (Option QuantConfig)
  deferred_construction : Bool
  on_device : Bool
  weights : WeightsState
  training_mode : Bool
  deriving DecidableEq, Repr

/-- Construction of a fresh model instance (the `model_func()` call);
`deferred` is true when it runs under `no_init_or_tensor`. -/
def ModelHandle.new (cls : ModelClass) (cfg : PretrainedConfig)
    (quant_arg : Option (Option QuantConfig)) (deferred : Bool) : ModelHandle :=
  { cls := cls, hf_config := cfg, quant_arg := quant_arg,
    deferred_construction := deferred, on_device := false,
    weights := WeightsState.uninitialized, training_mode := true }

/-- The `model.cuda()` call: moves the model to the accelerator. -/
def ModelHandle.cuda (m : ModelHandle) : ModelHandle :=
  { m with on_device := true }

/-- The `initialize_dummy_weights(model)` call from
`vllm.model_executor.weight_utils`: assigns synthetic values to every
weight tensor in place; we record whether the model was device-resident
at that moment. -/
def initialize_dummy_weights (m : ModelHandle) : ModelHandle :=
  { m with weights := WeightsState.dummyInitialized m.on_device }

/-- The `model.load_weights(...)` call (delegated to the model class). -/
def ModelHandle.load_weights (m : ModelHandle) (model : String)
    (download_dir : Option String) (load_format : String)
    (revision : Option String) (tensorizer_path : Option String) : ModelHandle :=
  { m with weights := (WeightsState.loadedFromCheckpoint model download_dir
      load_format revision tensorizer_path) }

/-- The `model.eval()` call: switches to inference (non-training) mode. -/
def ModelHandle.eval (m : ModelHandle) : ModelHandle :=
  { m with training_mode := false }

/-- The `for arch in architectures` loop of `_get_model_architecture`:
the registry value of the first candidate that is a registry key. -/
def scan_architectures : List String → Option ModelClass
  | [] => none
  | arch :: rest =>
    match registryLookup _MODEL_REGISTRY arch with
    | some c => some c
    | none => scan_architectures rest

/-- The `_get_model_architecture` function.  `getattr(config,
"architectures", [])` becomes `Option.getD`; the error carries the data
interpolated into the `ValueError` message (the attempted list and
`list(_MODEL_REGISTRY.keys())`). -/
def _get_model_architecture (config : PretrainedConfig) :
    Except LoadError ModelClass :=
  let architectures := config.architectures.getD []
  match scan_architectures architectures with
  | some c => Except.ok c
  | none => Except.error (LoadError.unsupportedArchitecture architectures
      (_MODEL_REGISTRY.map Prod.fst))

/-- The `@contextlib.contextmanager` function `_set_default_torch_dtype`,
applied to a body (the `with` block).  The source has no try/finally
around its `yield`: when the body raises, Python throws the exception
into the generator at the yield point and the line restoring `old_dtype`
never runs, so restoration happens only on the normal-return path. -/
def _set_default_torch_dtype (dtype : TorchDtype)
    (body : TorchState → Except LoadError ModelHandle × TorchState)
    (s : TorchState) : Except LoadError ModelHandle × TorchState :=
  let old_dtype := s.default_dtype
  let s1 := torch_set_default_dtype dtype s
  match body s1 with
  | (Except.ok m, s2) => (Except.ok m, torch_set_default_dtype old_dtype s2)
  | (Except.error e, s2) => (Except.error e, s2)

/-- The quantization block of `get_model` (the `if model_config.
quantization is not None` suite): returns the `quant_config` local
(None when no scheme is requested). -/
def quantValidation (model_config : ModelConfig) (model_class : ModelClass)
    (env : Env) : Except LoadError (Option QuantConfig) :=
  match model_config.quantization with
  | none => Except.ok none
  | some scheme =>
    if model_class ∈ _MODEL_CLASSES_SUPPORT_QUANTIZATION then
      match env.get_quant_config scheme model_config.model
          model_config.download_dir with
      | Except.error msg => Except.error (LoadError.collaborator msg)
      | Except.ok quant_config =>
        let capability := env.get_device_capability.1 * 10 +
          env.get_device_capability.2
        if capability < quant_config.min_capability then
          Except.error (LoadError.incompatibleAccelerator scheme
            quant_config.min_capability capability)
        else if model_config.dtype ∈ quant_config.supported_act_dtypes then
          Except.ok (some quant_config)
        else
          Except.error (LoadError.unsupportedDtype model_config.dtype scheme
            quant_config.supported_act_dtypes)
    else
      Except.error (LoadError.unsupportedQuantization model_class)

/-- The body of the `with _set_default_torch_dtype(...)` block of
`get_model`: construct the model (under `no_init_or_tensor` for the
tensorizer format), then branch on the load format to materialize
weights and move the model to the accelerator. -/
def loadModelBody (model_config : ModelConfig) (model_class : ModelClass)
    (quant_config : Option QuantConfig) (env : Env) (s : TorchState) :
    Except LoadError ModelHandle × TorchState :=
  match env.construct_result with
  | Except.error msg => (Except.error (LoadError.collaborator msg), s)
  | Except.ok _ =>
    let quant_arg : Option (Option QuantConfig) :=
      if model_class ∈ _MODEL_CLASSES_SUPPORT_QUANTIZATION then
        some quant_config
      else
        none
    let deferred := model_config.load_format = "tensorizer"
    let model := ModelHandle.new model_class model_config.hf_config
      quant_arg deferred
    if model_config.load_format = "dummy" then
      let model := model.cuda
      let model := initialize_dummy_weights model
      (Except.ok model, s)
    else
      match env.load_weights_result with
      | Except.error msg => (Except.error (LoadError.collaborator msg), s)
      | Except.ok _ =>
        let model := model.load_weights model_config.model
          model_config.download_dir model_config.load_format
          model_config.revision model_config.tensorizer_path
        (Except.ok model.cuda, s)

/-- The `get_model` function.  The diagnostic `print(get_mem_usage())`
is an observability side effect with no bearing on state or result and
is omitted. -/
def get_model (model_config : ModelConfig) (env : Env) (s : TorchState) :
    Except LoadError ModelHandle × TorchState :=
  match _get_model_architecture model_config.hf_config with
  | Except.error e => (Except.error e, s)
  | Except.ok model_class =>
    if model_config.load_format = "tensorizer" ∧
        model_class ∉ _MODEL_CLASSES_SUPPORT_TENSORIZER then
      (Except.error (LoadError.unsupportedLoadFormat model_class), s)
    else
      match quantValidation model_config model_class env with
      | Except.error e => (Except.error e, s)
      | Except.ok quant_config =>
        match _set_default_torch_dtype model_config.dtype
            (loadModelBody model_config model_class quant_config env) s with
        | (Except.ok model, s2) => (Except.ok model.eval, s2)
        | (Except.error e, s2) => (Except.error e, s2)

/-! ### Concrete fixtures used by witnesses and counterexamples -/

/-- An environment in which every collaborator succeeds: the scheme
resolves to minimum capability 75 supporting float16, the accelerator is
an (8, 0) device, construction and weight loading succeed. -/
def envOK : Env :=
  { get_quant_config := fun _ _ _ =>
      Except.ok { min_capability := 75,
                  supported_act_dtypes := [TorchDtype.float16] },
    get_device_capability := (8, 0),
    construct_result := Except.ok (),
    load_weights_result := Except.ok () }

/-- An environment identical to `envOK` except that the model weight
loader raises. -/
def envLoadFail : Env :=
  { envOK with load_weights_result := Except.error "checkpoint read failed" }

/-- An environment identical to `envOK` except that the accelerator is a
(7, 5) device and the scheme declares minimum capability 80. -/
def envLowCap : Env :=
  { envOK with
    get_quant_config := fun _ _ _ =>
      Except.ok { min_capability := 80,
                  supported_act_dtypes := [TorchDtype.float16] },
    get_device_capability := (7, 5) }

/-- A plain configuration: Llama architecture, default eager load format,
float16, no quantization. -/
def cfgLlama : ModelConfig :=
  { hf_config := { architectures := some ["LlamaForCausalLM"] },
    model := "m", download_dir := none, load_format := "pt",
    dtype := TorchDtype.float16, quantization := none,
    revision := none, tensorizer_path := none }

/-- `cfgLlama` with the dummy load format. -/
def cfgLlamaDummy : ModelConfig :=
  { cfgLlama with load_format := "dummy" }

/-- A configuration whose only candidate architecture is unknown. -/
def cfgUnknown : ModelConfig :=
  { cfgLlama with hf_config := { architectures := some ["UnknownModel"] } }

/-- OPT with the tensorizer load format and a quantization scheme. -/
def cfgOptTensorizerAwq : ModelConfig :=
  { cfgLlama with
    hf_config := { architectures := some ["OPTForCausalLM"] }
    load_format := "tensorizer"
    quantization := some "awq" }

/-- OPT with the default load format and a quantization scheme. -/
def cfgOptAwq : ModelConfig :=
  { cfgLlama with
    hf_config := { architectures := some ["OPTForCausalLM"] }
    quantization := some "awq" }

/-- OPT with the tensorizer load format and no quantization scheme. -/
def cfgOptTensorizer : ModelConfig :=
  { cfgLlama with
    hf_config := { architectures := some ["OPTForCausalLM"] }
    load_format := "tensorizer" }

/-- Mistral with a quantization scheme, default load format. -/
def cfgMistralAwq : ModelConfig :=
  { cfgLlama with
    hf_config := { architectures := some ["MistralForCausalLM"] }
    quantization := some "awq" }

/-- Mistral with a quantization scheme and a bfloat16 dtype. -/
def cfgMistralAwqBf16 : ModelConfig :=
  { cfgMistralAwq with dtype := TorchDtype.bfloat16 }

/-- The float32 initial torch state with an empty call log. -/
def initState : TorchState :=
  { default_dtype := TorchDtype.float32, set_calls := [] }

/-- The model handle `get_model cfgLlama envOK initState` returns. -/
def llamaLoadedHandle : ModelHandle :=
  { cls := ModelClass.LlamaForCausalLM,
    hf_config := { architectures := some ["LlamaForCausalLM"] },
    quant_arg := some none, deferred_construction := false,
    on_device := true,
    weights := WeightsState.loadedFromCheckpoint "m" none "pt" none none,
    training_mode := false }

/-! ### Helper lemmas -/

/-- The ordered scan of `_get_model_architecture` equals: find the first
candidate that is a registry key, then look up its value. -/
theorem scan_architectures_eq_find (l : List String) :
    scan_architectures l =
      (l.find? fun a => (registryLookup _MODEL_REGISTRY a).isSome).bind
        (registryLookup _MODEL_REGISTRY) := by
  induction l with
  | nil => rfl
  | cons a rest ih =>
    by_cases h : (registryLookup _MODEL_REGISTRY a).isSome
    · rw [List.find?_cons_of_pos _ (by simpa using h)]
      obtain ⟨c, hc⟩ := Option.isSome_iff_exists.mp h
      simp [scan_architectures, hc]
    · rw [List.find?_cons_of_neg _ (by simpa using h)]
      have hc : registryLookup _MODEL_REGISTRY a = none :=
        Option.not_isSome_iff_eq_none.mp h
      simp [scan_architectures, hc, ih]

/-! ### Claim theorems -/

/-- C2: for every ordered list of candidate architecture names,
`_get_model_architecture` returns the registry value of the first
candidate that is a registry key (exact match, ordered scan), and when
no candidate is a key it raises the unsupported-architecture error
carrying the attempted candidates and the full ordered list of
registered names. -/
theorem C2_resolution_first_match (archs : List String) :
    (∀ a, (archs.find? fun x => (registryLookup _MODEL_REGISTRY x).isSome) =
        some a →
      ∃ c, registryLookup _MODEL_REGISTRY a = some c ∧
        _get_model_architecture { architectures := some archs } =
          Except.ok c) ∧
    ((archs.find? fun x => (registryLookup _MODEL_REGISTRY x).isSome) =
        none →
      _get_model_architecture { architectures := some archs } =
        Except.error (LoadError.unsupportedArchitecture archs
          (_MODEL_REGISTRY.map Prod.fst))) := by
  constructor
  · intro a ha
    have hp : (registryLookup _MODEL_REGISTRY a).isSome := by
      simpa using List.find?_some ha
    obtain ⟨c, hc⟩ := Option.isSome_iff_exists.mp hp
    refine ⟨c, hc, ?_⟩
    unfold _get_model_architecture
    simp only [Option.getD_some, scan_architectures_eq_find, ha,
      Option.some_bind, hc]
  · intro ha
    unfold _get_model_architecture
    simp only [Option.getD_some, scan_architectures_eq_find, ha,
      Option.none_bind]

/-- Witness for C2: on the list `["foo", "LLaMAForCausalLM"]` the first
registry key is the legacy alias, and resolution returns the Llama
implementation it maps to. -/
theorem C2_resolution_first_match_witness :
    ∃ c, registryLookup _MODEL_REGISTRY "LLaMAForCausalLM" = some c ∧
      _get_model_architecture
        { architectures := some ["foo", "LLaMAForCausalLM"] } =
        Except.ok c :=
  (C2_resolution_first_match ["foo", "LLaMAForCausalLM"]).1
    "LLaMAForCausalLM" (by decide)

/-- C10: a configuration object without the `architectures` attribute is
treated as an empty candidate list, and resolution raises the
unsupported-architecture error with an empty attempted list. -/
theorem C10_missing_architectures_attribute :
    _get_model_architecture { architectures := none } =
      Except.error (LoadError.unsupportedArchitecture []
        (_MODEL_REGISTRY.map Prod.fst)) := rfl

/-- C1: the scope guard does NOT restore the prior default dtype on the
exception path.  With a Llama configuration whose weight loading raises,
`get_model` propagates the collaborator error but leaves the process-wide
default dtype at the overridden float16 value instead of the original
float32; the call log shows exactly one `set_default_dtype` call and no
restoring call. -/
theorem C1_dtype_not_restored_on_failure :
    initState.default_dtype = TorchDtype.float32 ∧
    get_model cfgLlama envLoadFail initState =
      (Except.error (LoadError.collaborator "checkpoint read failed"),
       { default_dtype := TorchDtype.float16,
         set_calls := [TorchDtype.float16] }) := by
  exact ⟨rfl, rfl⟩

/-- Inversion of the dtype scope guard: the wrapped run returns exactly
the result value of the body, run on the overridden state. -/
theorem set_default_torch_dtype_inv (d : TorchDtype)
    (body : TorchState → Except LoadError ModelHandle × TorchState)
    (s : TorchState) (r : Except LoadError ModelHandle) (s2 : TorchState)
    (h : _set_default_torch_dtype d body s = (r, s2)) :
    ∃ s3, body (torch_set_default_dtype d s) = (r, s3) := by
  simp only [_set_default_torch_dtype] at h
  rcases hb : body (torch_set_default_dtype d s) with ⟨r3, s3⟩
  rw [hb] at h
  refine ⟨s3, ?_⟩
  cases r3 <;> (simp only [Prod.mk.injEq] at h; rw [h.1])

/-- Every error produced inside the construction/materialization body is
a propagated collaborator failure, and the body never touches the torch
state. -/
theorem loadModelBody_error (mc : ModelConfig) (cls : ModelClass)
    (qc : Option QuantConfig) (env : Env) (s s2 : TorchState) (e : LoadError)
    (h : loadModelBody mc cls qc env s = (Except.error e, s2)) :
    (∃ msg, e = LoadError.collaborator msg) ∧ s2 = s := by
  simp only [loadModelBody] at h
  split at h
  · simp only [Prod.mk.injEq, Except.error.injEq] at h
    exact ⟨⟨_, h.1.symm⟩, h.2.symm⟩
  · split at h
    · simp at h
    · split at h
      · simp only [Prod.mk.injEq, Except.error.injEq] at h
        exact ⟨⟨_, h.1.symm⟩, h.2.symm⟩
      · simp at h

/-- A successfully constructed model carries the resolved class, got the
extra quantization argument exactly when its class is in the
quantization-capable list, and the body left the torch state alone. -/
theorem loadModelBody_ok (mc : ModelConfig) (cls : ModelClass)
    (qc : Option QuantConfig) (env : Env) (s s2 : TorchState) (m : ModelHandle)
    (h : loadModelBody mc cls qc env s = (Except.ok m, s2)) :
    m.cls = cls ∧
    m.quant_arg =
      (if cls ∈ _MODEL_CLASSES_SUPPORT_QUANTIZATION then some qc else none) ∧
    s2 = s := by
  simp only [loadModelBody] at h
  split at h
  · simp at h
  · split at h
    · simp only [Prod.mk.injEq, Except.ok.injEq] at h
      obtain ⟨hm, hs⟩ := h
      subst hm
      exact ⟨rfl, rfl, hs.symm⟩
    · split at h
      · simp at h
      · simp only [Prod.mk.injEq, Except.ok.injEq] at h
        obtain ⟨hm, hs⟩ := h
        subst hm
        exact ⟨rfl, rfl, hs.symm⟩

/-- Unfolding of `get_model` once the architecture has been resolved. -/
theorem get_model_eq_of_arch (mc : ModelConfig) (env : Env) (s : TorchState)
    (cls : ModelClass)
    (harch : _get_model_architecture mc.hf_config = Except.ok cls) :
    get_model mc env s =
      if mc.load_format = "tensorizer" ∧
          cls ∉ _MODEL_CLASSES_SUPPORT_TENSORIZER then
        (Except.error (LoadError.unsupportedLoadFormat cls), s)
      else
        match quantValidation mc cls env with
        | Except.error e => (Except.error e, s)
        | Except.ok qc =>
          match _set_default_torch_dtype mc.dtype
              (loadModelBody mc cls qc env) s with
          | (Except.ok model, s2) => (Except.ok model.eval, s2)
          | (Except.error e, s2) => (Except.error e, s2) := by
  simp only [get_model, harch]

/-- Unfolding of the quantization block once the scheme, the capability
membership and the loaded scheme configuration are fixed. -/
theorem quantValidation_eq (mc : ModelConfig) (cls : ModelClass) (env : Env)
    (scheme : String) (qc : QuantConfig)
    (hq : mc.quantization = some scheme)
    (hs : cls ∈ _MODEL_CLASSES_SUPPORT_QUANTIZATION)
    (hqc : env.get_quant_config scheme mc.model mc.download_dir =
      Except.ok qc) :
    quantValidation mc cls env =
      if env.get_device_capability.1 * 10 + env.get_device_capability.2 <
          qc.min_capability then
        Except.error (LoadError.incompatibleAccelerator scheme
          qc.min_capability
          (env.get_device_capability.1 * 10 + env.get_device_capability.2))
      else if mc.dtype ∈ qc.supported_act_dtypes then
        Except.ok (some qc)
      else
        Except.error (LoadError.unsupportedDtype mc.dtype scheme
          qc.supported_act_dtypes) := by
  simp only [quantValidation, hq, if_pos hs, hqc]

/-- C7: selecting the tensorizer load format for an implementation
outside the deferred-allocation-capable list fails with the
unsupported-load-format error naming the implementation, for every
environment and with the torch state untouched — hence before any
quantization validation or construction. -/
theorem C7_tensorizer_guard (mc : ModelConfig) (env : Env) (s : TorchState)
    (cls : ModelClass)
    (harch : _get_model_architecture mc.hf_config = Except.ok cls)
    (hfmt : mc.load_format = "tensorizer")
    (hns : cls ∉ _MODEL_CLASSES_SUPPORT_TENSORIZER) :
    get_model mc env s =
      (Except.error (LoadError.unsupportedLoadFormat cls), s) := by
  rw [get_model_eq_of_arch mc env s cls harch, if_pos ⟨hfmt, hns⟩]

/-- Witness for C7: OPT with the tensorizer format (and no quantization
scheme) fails with the unsupported-load-format error. -/
theorem C7_tensorizer_guard_witness :
    get_model cfgOptTensorizer envOK initState =
      (Except.error
        (LoadError.unsupportedLoadFormat ModelClass.OPTForCausalLM),
       initState) :=
  C7_tensorizer_guard cfgOptTensorizer envOK initState
    ModelClass.OPTForCausalLM rfl rfl (by decide)

/-- Counterexample for C4: OPT with the tensorizer load format and a
requested quantization scheme resolves to a non-quantization-capable
implementation, yet `get_model` fails with the unsupported-load-format
error, not the unsupported-quantization error the claim requires. -/
theorem C4_counterexample :
    cfgOptTensorizerAwq.quantization = some "awq" ∧
    _get_model_architecture cfgOptTensorizerAwq.hf_config =
      Except.ok ModelClass.OPTForCausalLM ∧
    (ModelClass.OPTForCausalLM ∈ _MODEL_CLASSES_SUPPORT_QUANTIZATION →
      False) ∧
    (get_model cfgOptTensorizerAwq envOK initState).1 =
      Except.error
        (LoadError.unsupportedLoadFormat ModelClass.OPTForCausalLM) ∧
    (get_model cfgOptTensorizerAwq envOK initState).1 ≠
      Except.error
        (LoadError.unsupportedQuantization ModelClass.OPTForCausalLM) := by
  refine ⟨rfl, rfl, by decide, rfl, ?_⟩
  rw [show (get_model cfgOptTensorizerAwq envOK initState).1 =
    Except.error (LoadError.unsupportedLoadFormat ModelClass.OPTForCausalLM)
    from rfl]
  simp

/-- C4 (amended): when the load format is not the tensorizer format, a
configuration requesting a quantization scheme for a resolved
implementation outside the quantization-capable list fails with the
unsupported-quantization error naming the implementation, for every
environment (so neither the quantization config loader nor the
accelerator capability query is consulted) and every requested dtype. -/
theorem C4_unsupported_quantization (mc : ModelConfig) (env : Env)
    (s : TorchState) (cls : ModelClass) (scheme : String)
    (harch : _get_model_architecture mc.hf_config = Except.ok cls)
    (hq : mc.quantization = some scheme)
    (hns : cls ∉ _MODEL_CLASSES_SUPPORT_QUANTIZATION)
    (hfmt : mc.load_format ≠ "tensorizer") :
    get_model mc env s =
      (Except.error (LoadError.unsupportedQuantization cls), s) := by
  have hqv : quantValidation mc cls env =
      Except.error (LoadError.unsupportedQuantization cls) := by
    simp only [quantValidation, hq, if_neg hns]
  rw [get_model_eq_of_arch mc env s cls harch,
    if_neg (fun hc => hfmt hc.1), hqv]

/-- Witness for C4 (amended): OPT with the default load format and a
requested scheme fails with the unsupported-quantization error. -/
theorem C4_unsupported_quantization_witness :
    get_model cfgOptAwq envOK initState =
      (Except.error
        (LoadError.unsupportedQuantization ModelClass.OPTForCausalLM),
       initState) :=
  C4_unsupported_quantization cfgOptAwq envOK initState
    ModelClass.OPTForCausalLM "awq" rfl rfl (by decide) (by decide)

/-- C5: the accelerator capability (major, minor) is compared as the
single integer major*10+minor against the declared scheme minimum; a
strictly smaller value fails `get_model` with the
incompatible-accelerator error reporting minimum and current value, and
a value at least the minimum sends validation on to the dtype-membership
check. -/
theorem C5_capability_gate (mc : ModelConfig) (env : Env) (s : TorchState)
    (cls : ModelClass) (scheme : String) (qc : QuantConfig)
    (harch : _get_model_architecture mc.hf_config = Except.ok cls)
    (hguard : ¬(mc.load_format = "tensorizer" ∧
      cls ∉ _MODEL_CLASSES_SUPPORT_TENSORIZER))
    (hq : mc.quantization = some scheme)
    (hs : cls ∈ _MODEL_CLASSES_SUPPORT_QUANTIZATION)
    (hqc : env.get_quant_config scheme mc.model mc.download_dir =
      Except.ok qc) :
    (env.get_device_capability.1 * 10 + env.get_device_capability.2 <
        qc.min_capability →
      get_model mc env s =
        (Except.error (LoadError.incompatibleAccelerator scheme
          qc.min_capability
          (env.get_device_capability.1 * 10 + env.get_device_capability.2)),
         s)) ∧
    (qc.min_capability ≤
        env.get_device_capability.1 * 10 + env.get_device_capability.2 →
      quantValidation mc cls env =
        if mc.dtype ∈ qc.supported_act_dtypes then Except.ok (some qc)
        else Except.error (LoadError.unsupportedDtype mc.dtype scheme
          qc.supported_act_dtypes)) := by
  constructor
  · intro hlt
    rw [get_model_eq_of_arch mc env s cls harch, if_neg hguard,
      quantValidation_eq mc cls env scheme qc hq hs hqc, if_pos hlt]
  · intro hge
    rw [quantValidation_eq mc cls env scheme qc hq hs hqc,
      if_neg (not_lt.mpr hge)]

/-- Witness for C5: Mistral with a scheme of minimum capability 80 on a
(7, 5) accelerator fails with the incompatible-accelerator error
reporting 80 and 75. -/
theorem C5_capability_gate_witness :
    get_model cfgMistralAwq envLowCap initState =
      (Except.error (LoadError.incompatibleAccelerator "awq" 80
        (envLowCap.get_device_capability.1 * 10 +
          envLowCap.get_device_capability.2)), initState) :=
  (C5_capability_gate cfgMistralAwq envLowCap initState
    ModelClass.MistralForCausalLM "awq"
    { min_capability := 80, supported_act_dtypes := [TorchDtype.float16] }
    rfl (by decide) rfl (by decide) rfl).1 (by decide)

/-- C6: once the capability check passes, a requested dtype outside the
scheme's supported set fails `get_model` with the unsupported-dtype
error reporting the dtype and the supported set, while a member dtype
makes validation succeed with the scheme configuration, so quantized
construction proceeds. -/
theorem C6_dtype_gate (mc : ModelConfig) (env : Env) (s : TorchState)
    (cls : ModelClass) (scheme : String) (qc : QuantConfig)
    (harch : _get_model_architecture mc.hf_config = Except.ok cls)
    (hguard : ¬(mc.load_format = "tensorizer" ∧
      cls ∉ _MODEL_CLASSES_SUPPORT_TENSORIZER))
    (hq : mc.quantization = some scheme)
    (hs : cls ∈ _MODEL_CLASSES_SUPPORT_QUANTIZATION)
    (hqc : env.get_quant_config scheme mc.model mc.download_dir =
      Except.ok qc)
    (hge : qc.min_capability ≤
      env.get_device_capability.1 * 10 + env.get_device_capability.2) :
    (mc.dtype ∉ qc.supported_act_dtypes →
      get_model mc env s =
        (Except.error (LoadError.unsupportedDtype mc.dtype scheme
          qc.supported_act_dtypes), s)) ∧
    (mc.dtype ∈ qc.supported_act_dtypes →
      quantValidation mc cls env = Except.ok (some qc)) := by
  constructor
  · intro hnd
    rw [get_model_eq_of_arch mc env s cls harch, if_neg hguard,
      quantValidation_eq mc cls env scheme qc hq hs hqc,
      if_neg (not_lt.mpr hge), if_neg hnd]
  · intro hd
    rw [quantValidation_eq mc cls env scheme qc hq hs hqc,
      if_neg (not_lt.mpr hge), if_pos hd]

/-- Witness for C6: Mistral with a bfloat16 dtype against a scheme
supporting only float16 (capability check passing) fails with the
unsupported-dtype error. -/
theorem C6_dtype_gate_witness :
    get_model cfgMistralAwqBf16 envOK initState =
      (Except.error (LoadError.unsupportedDtype TorchDtype.bfloat16 "awq"
        [TorchDtype.float16]), initState) :=
  (C6_dtype_gate cfgMistralAwqBf16 envOK initState
    ModelClass.MistralForCausalLM "awq"
    { min_capability := 75, supported_act_dtypes := [TorchDtype.float16] }
    rfl (by decide) rfl (by decide) rfl (by decide)).1 (by decide)

/-- C9: whenever `get_model` fails with one of the five validation
errors, the final torch state equals the initial one — the default
dtype was never modified at all, since the state logs every
`set_default_dtype` call. -/
theorem C9_validation_error_state (mc : ModelConfig) (env : Env)
    (s : TorchState) (e : LoadError)
    (h : (get_model mc env s).1 = Except.error e)
    (hv : e.isValidationError = true) :
    (get_model mc env s).2 = s := by
  obtain ⟨ra, harch⟩ : ∃ ra, _get_model_architecture mc.hf_config = ra :=
    ⟨_, rfl⟩
  cases ra with
  | error e0 =>
    have hg : get_model mc env s = (Except.error e0, s) := by
      simp only [get_model, harch]
    rw [hg]
  | ok cls =>
    rw [get_model_eq_of_arch mc env s cls harch] at h ⊢
    by_cases htz : mc.load_format = "tensorizer" ∧
        cls ∉ _MODEL_CLASSES_SUPPORT_TENSORIZER
    · rw [if_pos htz]
    · rw [if_neg htz] at h ⊢
      obtain ⟨rq, hqv⟩ : ∃ rq, quantValidation mc cls env = rq := ⟨_, rfl⟩
      cases rq with
      | error e1 => rw [hqv] at h ⊢
      | ok qcfg =>
        rw [hqv] at h ⊢
        obtain ⟨r, s2, hw⟩ : ∃ r s2,
            _set_default_torch_dtype mc.dtype
              (loadModelBody mc cls qcfg env) s = (r, s2) := ⟨_, _, rfl⟩
        have h2 : (match _set_default_torch_dtype mc.dtype
              (loadModelBody mc cls qcfg env) s with
            | (Except.ok model, s2) => (Except.ok model.eval, s2)
            | (Except.error e, s2) => (Except.error e, s2)).1 =
            Except.error e := h
        rw [hw] at h2
        cases r with
        | ok m => simp at h2
        | error e2 =>
          exfalso
          simp only [Except.error.injEq] at h2
          obtain ⟨s3, hb⟩ :=
            set_default_torch_dtype_inv mc.dtype _ s _ s2 hw
          obtain ⟨⟨msg, hmsg⟩, -⟩ :=
            loadModelBody_error mc cls qcfg env _ s3 e2 hb
          rw [← h2, hmsg] at hv
          simp [LoadError.isValidationError] at hv

/-- Witness for C9: an unknown architecture fails validation and leaves
the torch state exactly as it was. -/
theorem C9_validation_error_state_witness :
    (get_model cfgUnknown envOK initState).2 = initState :=
  C9_validation_error_state cfgUnknown envOK initState
    (LoadError.unsupportedArchitecture ["UnknownModel"]
      (_MODEL_REGISTRY.map Prod.fst)) rfl rfl

/-- Counterexample for C3: with no quantization scheme requested, the
Llama implementation (quantization-capable) is still constructed with an
additional second argument — the Python `None` — rather than from its
configuration object alone. -/
theorem C3_counterexample :
    cfgLlama.quantization = none ∧
    (get_model cfgLlama envOK initState).1.toOption.map
      ModelHandle.quant_arg = some (some none) ∧
    (get_model cfgLlama envOK initState).1.toOption.map
      ModelHandle.quant_arg ≠ some none := by
  refine ⟨rfl, rfl, ?_⟩
  rw [show (get_model cfgLlama envOK initState).1.toOption.map
    ModelHandle.quant_arg = some (some none) from rfl]
  simp

/-- C3 (amended): every successfully returned model got the extra
quantization construction argument exactly when its class is in the
quantization-capable list — the validated scheme configuration when one
was requested, the null value when none was — and classes outside the
list are constructed from the configuration object alone. -/
theorem C3_quantization_argument (mc : ModelConfig) (env : Env)
    (s : TorchState) (m : ModelHandle)
    (h : (get_model mc env s).1 = Except.ok m) :
    ∃ q, quantValidation mc m.cls env = Except.ok q ∧
      (mc.quantization = none → q = none) ∧
      m.quant_arg =
        (if m.cls ∈ _MODEL_CLASSES_SUPPORT_QUANTIZATION then some q
         else none) := by
  obtain ⟨ra, harch⟩ : ∃ ra, _get_model_architecture mc.hf_config = ra :=
    ⟨_, rfl⟩
  cases ra with
  | error e0 =>
    have hg : get_model mc env s = (Except.error e0, s) := by
      simp only [get_model, harch]
    rw [hg] at h
    simp at h
  | ok cls =>
    rw [get_model_eq_of_arch mc env s cls harch] at h
    by_cases htz : mc.load_format = "tensorizer" ∧
        cls ∉ _MODEL_CLASSES_SUPPORT_TENSORIZER
    · rw [if_pos htz] at h
      simp at h
    · rw [if_neg htz] at h
      obtain ⟨rq, hqv⟩ : ∃ rq, quantValidation mc cls env = rq := ⟨_, rfl⟩
      cases rq with
      | error e1 => rw [hqv] at h; simp at h
      | ok qcfg =>
        rw [hqv] at h
        obtain ⟨r, s2, hw⟩ : ∃ r s2,
            _set_default_torch_dtype mc.dtype
              (loadModelBody mc cls qcfg env) s = (r, s2) := ⟨_, _, rfl⟩
        have h2 : (match _set_default_torch_dtype mc.dtype
              (loadModelBody mc cls qcfg env) s with
            | (Except.ok model, s2) => (Except.ok model.eval, s2)
            | (Except.error e, s2) => (Except.error e, s2)).1 =
            Except.ok m := h
        rw [hw] at h2
        cases r with
        | error e2 => simp at h2
        | ok m0 =>
          simp only [Except.ok.injEq] at h2
          obtain ⟨s3, hb⟩ :=
            set_default_torch_dtype_inv mc.dtype _ s _ s2 hw
          obtain ⟨hcls, hqa, -⟩ :=
            loadModelBody_ok mc cls qcfg env _ s3 m0 hb
          subst h2
          refine ⟨qcfg, ?_, ?_, ?_⟩
          · have hc2 : (ModelHandle.eval m0).cls = cls := hcls
            rw [hc2]
            exact hqv
          · intro hqn
            simp only [quantValidation, hqn, Except.ok.injEq] at hqv
            exact hqv.symm
          · have hc2 : (ModelHandle.eval m0).cls = cls := hcls
            rw [hc2]
            exact hqa

/-- Witness for C3 (amended): the Llama load with no requested scheme
returns a handle whose construction argument slot holds the null
quantization value. -/
theorem C3_quantization_argument_witness :
    ∃ q, quantValidation cfgLlama llamaLoadedHandle.cls envOK =
        Except.ok q ∧
      (cfgLlama.quantization = none → q = none) ∧
      llamaLoadedHandle.quant_arg =
        (if llamaLoadedHandle.cls ∈ _MODEL_CLASSES_SUPPORT_QUANTIZATION then
          some q
         else none) :=
  C3_quantization_argument cfgLlama envOK initState llamaLoadedHandle rfl

/-- C8: for any configuration with candidates `["LlamaForCausalLM"]`,
the dummy load format and no quantization scheme, and any environment in
which construction succeeds, `get_model` returns a model that was moved
to the accelerator before its weights were assigned synthetic values
(`dummyInitialized true`), is device-resident and is in inference mode;
the result is one fixed expression never consulting the quantization
config loader, the capability query or the weight loader, so no
quantization validation is performed. -/
theorem C8_dummy_path (mc : ModelConfig) (env : Env) (s : TorchState)
    (harch : mc.hf_config.architectures = some ["LlamaForCausalLM"])
    (hfmt : mc.load_format = "dummy")
    (hq : mc.quantization = none)
    (hc : env.construct_result = Except.ok ()) :
    get_model mc env s =
      (Except.ok
        { cls := ModelClass.LlamaForCausalLM,
          hf_config := mc.hf_config, quant_arg := some none,
          deferred_construction := false, on_device := true,
          weights := WeightsState.dummyInitialized true,
          training_mode := false },
       torch_set_default_dtype s.default_dtype
         (torch_set_default_dtype mc.dtype s)) := by
  have harch2 : _get_model_architecture mc.hf_config =
      Except.ok ModelClass.LlamaForCausalLM := by
    unfold _get_model_architecture
    rw [harch]
    rfl
  have hguard : ¬(mc.load_format = "tensorizer" ∧
      ModelClass.LlamaForCausalLM ∉ _MODEL_CLASSES_SUPPORT_TENSORIZER) := by
    intro hcond
    rw [hfmt] at hcond
    exact absurd hcond.1 (by decide)
  have hqv : quantValidation mc ModelClass.LlamaForCausalLM env =
      Except.ok none := by
    simp only [quantValidation, hq]
  have hbody : loadModelBody mc ModelClass.LlamaForCausalLM none env
      (torch_set_default_dtype mc.dtype s) =
      (Except.ok
        { cls := ModelClass.LlamaForCausalLM,
          hf_config := mc.hf_config, quant_arg := some none,
          deferred_construction := false, on_device := true,
          weights := WeightsState.dummyInitialized true,
          training_mode := true },
       torch_set_default_dtype mc.dtype s) := by
    simp only [loadModelBody, hc, hfmt]
    rfl
  have hwrap : _set_default_torch_dtype mc.dtype
      (loadModelBody mc ModelClass.LlamaForCausalLM none env) s =
      (Except.ok
        { cls := ModelClass.LlamaForCausalLM,
          hf_config := mc.hf_config, quant_arg := some none,
          deferred_construction := false, on_device := true,
          weights := WeightsState.dummyInitialized true,
          training_mode := true },
       torch_set_default_dtype s.default_dtype
         (torch_set_default_dtype mc.dtype s)) := by
    simp only [_set_default_torch_dtype, hbody]
  rw [get_model_eq_of_arch mc env s _ harch2, if_neg hguard, hqv]
  show (match _set_default_torch_dtype mc.dtype
      (loadModelBody mc ModelClass.LlamaForCausalLM none env) s with
    | (Except.ok model, s2) => (Except.ok model.eval, s2)
    | (Except.error e, s2) => (Except.error e, s2)) = _
  rw [hwrap]
  rfl

/-- Witness for C8: the concrete dummy-format Llama load returns the
device-resident, inference-mode handle whose weights were synthesized
after the accelerator move. -/
theorem C8_dummy_path_witness :
    get_model cfgLlamaDummy envOK initState =
      (Except.ok
        { cls := ModelClass.LlamaForCausalLM,
          hf_config := cfgLlamaDummy.hf_config, quant_arg := some none,
          deferred_construction := false, on_device := true,
          weights := WeightsState.dummyInitialized true,
          training_mode := false },
       torch_set_default_dtype initState.default_dtype
         (torch_set_default_dtype cfgLlamaDummy.dtype initState)) :=
  C8_dummy_path cfgLlamaDummy envOK initState rfl rfl rfl rfl
